import Mathlib

/-!
Shallow embedding of `src/Draggable.js` (react-native-draggable).

Numbers are modelled as rationals. An absent (`undefined`) per-axis bound,
an absent callback, and an absent spring target are modelled with `Option`:
`Number.isFinite(b)` on a bound is `b.isSome` in the model. The React Native
`Animated.ValueXY` is modelled by its value/offset pair together with the
mirror `offsetFromStart` that the registered listener maintains (listeners
receive `value + offset`; `setOffset` and `flattenOffset` do not notify
listeners, `setValue` does).
-/

namespace Draggable

/-- A 2D point, used both as a position and as a drag delta
(`{x: number, y: number}` in the source). -/
structure Position where
  x : ℚ
  y : ℚ
deriving DecidableEq

/-- Screen rectangle as produced by `getBounds` in the source. -/
structure Rect where
  left : ℚ
  top : ℚ
  right : ℚ
  bottom : ℚ
deriving DecidableEq

/-- `Math.min` on rationals, written with an explicit comparison so that it
evaluates by kernel reduction. -/
def rmin (a b : ℚ) : ℚ :=
  if a ≤ b then a else b

/-- `Math.max` on rationals, written with an explicit comparison so that it
evaluates by kernel reduction. -/
def rmax (a b : ℚ) : ℚ :=
  if a ≤ b then b else a

/-- `Math.abs` on rationals, written with an explicit comparison so that it
evaluates by kernel reduction. -/
def jsAbs (a : ℚ) : ℚ :=
  if a ≤ 0 then -a else a

/-- `function clamp(number, min, max) { return Math.max(min, Math.min(number, max)); }`
(src/Draggable.js lines 19-21). -/
def clamp (number mn mx : ℚ) : ℚ :=
  rmax mn (rmin number mx)

/-- The finite sentinel `const far = 999999999;` used in `handleOnDrag`
(src/Draggable.js line 146) when a bound is not defined. -/
def far : ℚ := 999999999

/-- The X component computed in `handleOnDrag` (src/Draggable.js lines 147-151):
`clamp(dx, Number.isFinite(minX) ? minX - left : -far, Number.isFinite(maxX) ? maxX - right : far)`,
with `left`/`right` taken from the start rectangle. -/
def changeX (dx : ℚ) (minX maxX : Option ℚ) (sb : Rect) : ℚ :=
  clamp dx
    (match minX with
     | some m => m - sb.left
     | none => -far)
    (match maxX with
     | some m => m - sb.right
     | none => far)

/-- The Y component computed in `handleOnDrag` (src/Draggable.js lines 152-156),
using `top`/`bottom` of the start rectangle. -/
def changeY (dy : ℚ) (minY maxY : Option ℚ) (sb : Rect) : ℚ :=
  clamp dy
    (match minY with
     | some m => m - sb.top
     | none => -far)
    (match maxY with
     | some m => m - sb.bottom
     | none => far)

/-- The configuration props the core reads: base position `x`/`y`, the four
optional axis bounds, `shouldReverse` and `disabled`. -/
structure Config where
  x : ℚ
  y : ℚ
  minX : Option ℚ
  minY : Option ℚ
  maxX : Option ℚ
  maxY : Option ℚ
  shouldReverse : Bool
  disabled : Bool
deriving DecidableEq

/-- The mutable refs of the component: the `Animated.ValueXY` pan (split into
its value and its offset), the listener mirror `offsetFromStart`, the measured
`childSize`, the captured `startBounds` and the `isDragging` flag. -/
structure DragState where
  panValue : Position
  panOffset : Position
  offsetFromStart : Position
  childSize : Position
  startBounds : Option Rect
  isDragging : Bool
deriving DecidableEq

/-- Initial refs: pan at zero with zero offset, `offsetFromStart = {x:0,y:0}`,
`childSize = {x: renderSize, y: renderSize}`, `startBounds` undefined,
`isDragging` false (src/Draggable.js lines 56-64). -/
def initState (renderSize : ℚ) : DragState :=
  ⟨⟨0, 0⟩, ⟨0, 0⟩, ⟨0, 0⟩, ⟨renderSize, renderSize⟩, none, false⟩

/-- `getBounds` (src/Draggable.js lines 66-75): base position plus the
accumulated `offsetFromStart`, extended by the measured size. -/
def getBounds (cfg : Config) (st : DragState) : Rect :=
  let left := cfg.x + st.offsetFromStart.x
  let top := cfg.y + st.offsetFromStart.y
  ⟨left, top, left + st.childSize.x, top + st.childSize.y⟩

/-- `shouldStartDrag` (src/Draggable.js lines 77-82):
`!disabled && (Math.abs(gs.dx) > 2 || Math.abs(gs.dy) > 2)`. -/
def shouldStartDrag (disabled : Bool) (dx dy : ℚ) : Bool :=
  !disabled && (decide (jsAbs dx > 2) || decide (jsAbs dy > 2))

/-- Gesture phases delivered by the host, plus the layout measurement
callback that updates `childSize`. -/
inductive GestureEvent
  | grant
  | move (dx dy : ℚ)
  | release
  | layout (w h : ℚ)
deriving DecidableEq

/-- `pan.current.setValue(v)`: writes the pan value; when `shouldReverse` is
false the listener registered in the mount effect (src/Draggable.js lines
191-194) fires with the combined `value + offset` and stores it into
`offsetFromStart`; when `shouldReverse` is true no listener is registered. -/
def setPanValue (cfg : Config) (v : Position) (st : DragState) : DragState :=
  let st1 := { st with panValue := v }
  if cfg.shouldReverse then st1
  else { st1 with offsetFromStart := ⟨v.x + st1.panOffset.x, v.y + st1.panOffset.y⟩ }

/-- One gesture step of the component:
`onPanResponderGrant` (lines 130-140) snapshots `startBounds`, sets
`isDragging`, and in non-reverse mode does `setOffset(offsetFromStart)` then
`setValue({x:0,y:0})`; `handleOnDrag` (lines 142-161) clamps the cumulative
delta against the start rectangle and writes it with `setValue`;
`onPanResponderRelease` (lines 110-128) clears `isDragging` and in
non-reverse mode flattens the offset (value := value + offset, offset := 0,
no listener notification); `handleOnLayout` (lines 263-266) updates
`childSize`. A move before any grant leaves the state unchanged (the source
would fault reading `startBounds.current`; no such event sequence occurs). -/
def step (cfg : Config) (st : DragState) (ev : GestureEvent) : DragState :=
  match ev with
  | GestureEvent.grant =>
    let st1 := { st with startBounds := some (getBounds cfg st), isDragging := true }
    if cfg.shouldReverse then st1
    else setPanValue cfg ⟨0, 0⟩ { st1 with panOffset := st1.offsetFromStart }
  | GestureEvent.move dx dy =>
    match st.startBounds with
    | none => st
    | some sb =>
      setPanValue cfg ⟨changeX dx cfg.minX cfg.maxX sb, changeY dy cfg.minY cfg.maxY sb⟩ st
  | GestureEvent.release =>
    let st1 := { st with isDragging := false }
    if cfg.shouldReverse then st1
    else { st1 with
      panValue := ⟨st1.panValue.x + st1.panOffset.x, st1.panValue.y + st1.panOffset.y⟩,
      panOffset := ⟨0, 0⟩ }
  | GestureEvent.layout w h => { st with childSize := ⟨w, h⟩ }

/-- Run a sequence of gesture events from the initial state with the default
`renderSize = 36`. -/
def run (cfg : Config) (evs : List GestureEvent) : DragState :=
  evs.foldl (step cfg) (initState 36)

/-- The configuration object handed to `Animated.spring`: the target and the
two optional rest thresholds (absent when the call does not set them). -/
structure SpringConfig where
  toValue : Option Position
  restDisplacementThreshold : Option ℚ
  restSpeedThreshold : Option ℚ
deriving DecidableEq

/-- The spring started by `reversePosition` (src/Draggable.js lines 84-91):
`newOffset = onReverse ? onReverse() : {x:0,y:0}` and the target is
`newOffset || {x:0,y:0}`, so an `onReverse` returning `undefined` falls back
to the origin. No rest thresholds are set. -/
def reverseSpring (onReverse : Option (Unit → Option Position)) : SpringConfig :=
  let originalOffset : Position := ⟨0, 0⟩
  let newOffset : Option Position :=
    match onReverse with
    | some f => f ()
    | none => some originalOffset
  ⟨some (newOffset.getD originalOffset), none, none⟩

/-- The spring started by `animateTo(offset, callback)` (src/Draggable.js
lines 94-108): `toValue: offset` is passed through as written, with
`restDisplacementThreshold: 1` and `restSpeedThreshold: 1`. -/
def animateToSpring (offset : Option Position) : SpringConfig :=
  ⟨offset, some 1, some 1⟩

/-- The externally observable callbacks of the component. -/
inductive Callback
  | shortTap
  | dragRelease
  | pressOut
  | released (wasDragged : Bool)
deriving DecidableEq

/-- `handlePressOut` (src/Draggable.js lines 268-276): fires `onPressOut` and
then, when `isDragging.current` is false, `onRelease(event, false)`. -/
def handlePressOut (isDragging : Bool) : List Callback :=
  Callback.pressOut :: (if isDragging then [] else [Callback.released false])

/-- `onPanResponderRelease` callbacks (src/Draggable.js lines 121-124): with
the default (or any supplied) `onDragRelease`, it fires `onDragRelease` and
`onRelease(e, true)`. -/
def panReleaseCallbacks : List Callback :=
  [Callback.dragRelease, Callback.released true]

/-- Callbacks observed over one press-and-release interaction with cumulative
movement `(dx, dy)`. The pan responder is wired with
`onMoveShouldSetPanResponderCapture: shouldStartDrag` (src/Draggable.js lines
163-175), so the responder takes the gesture exactly when `shouldStartDrag`
holds; in that case release is reported through `onPanResponderRelease` while
`handlePressOut` sees `isDragging = true`; otherwise the `TouchableOpacity`
keeps the gesture and release is reported through `onPress` (wired to
`onShortPressRelease`, line 332) and `handlePressOut` with
`isDragging = false`. -/
def pressReleaseCallbacks (disabled : Bool) (dx dy : ℚ) : List Callback :=
  if shouldStartDrag disabled dx dy then panReleaseCallbacks ++ handlePressOut true
  else Callback.shortTap :: handlePressOut false

/-- The scenario configuration of the spec: base `{0,0}`, only `maxX = 100`
defined, reversal off, not disabled. -/
def cfgScenario : Config := ⟨0, 0, none, none, some 100, none, false, false⟩

/-- A configuration with base `{0,0}` and no bounds, reversal off. -/
def cfgOrigin : Config := ⟨0, 0, none, none, none, none, false, false⟩

/-- A reversal-enabled configuration with base `{5,6}` and no bounds. -/
def cfgReverse : Config := ⟨5, 6, none, none, none, none, true, false⟩

theorem rmin_eq_min (a b : ℚ) : rmin a b = min a b := by
  simp [rmin, min_def]

theorem rmax_eq_max (a b : ℚ) : rmax a b = max a b := by
  simp [rmax, max_def]

theorem jsAbs_eq_abs (a : ℚ) : jsAbs a = |a| := by
  unfold jsAbs
  by_cases h : a ≤ 0
  · simp [h, abs_of_nonpos h]
  · simp [h, abs_of_pos (lt_of_not_le h)]

theorem clamp_mem (v lo hi : ℚ) (h : lo ≤ hi) : lo ≤ clamp v lo hi ∧ clamp v lo hi ≤ hi := by
  rw [clamp, rmax_eq_max, rmin_eq_min]
  exact ⟨le_max_left _ _, max_le h (min_le_right _ _)⟩

theorem shouldStartDrag_le_two (d : Bool) (dx dy : ℚ) (h1 : |dx| ≤ 2) (h2 : |dy| ≤ 2) :
    shouldStartDrag d dx dy = false := by
  have e1 : decide (jsAbs dx > 2) = false := by
    rw [jsAbs_eq_abs]
    exact decide_eq_false (not_lt.2 h1)
  have e2 : decide (jsAbs dy > 2) = false := by
    rw [jsAbs_eq_abs]
    exact decide_eq_false (not_lt.2 h2)
  simp [shouldStartDrag, e1, e2]

/-- Claim C1 (amended): with both X bounds defined, whenever the start
rectangle is well-formed (`left ≤ right`) and fits between the bounds
(`minX - left ≤ maxX - right`), the rectangle shifted by the clamped delta
has both edges inside `[minX, maxX]`; the same holds on the Y axis for
`top`/`bottom`. With only `maxX` defined, the right edge stays below `maxX`
provided the required shift does not exceed the finite sentinel
(`-far ≤ maxX - right`), and dually with only `minX` defined. Without the
fit condition the original claim fails (see the counterexample). -/
theorem clamped_rect_within_defined_bounds (sb : Rect) (mn mx d : ℚ) :
    (sb.left ≤ sb.right → mn - sb.left ≤ mx - sb.right →
      mn ≤ sb.left + changeX d (some mn) (some mx) sb ∧
      sb.left + changeX d (some mn) (some mx) sb ≤ mx ∧
      mn ≤ sb.right + changeX d (some mn) (some mx) sb ∧
      sb.right + changeX d (some mn) (some mx) sb ≤ mx) ∧
    (sb.top ≤ sb.bottom → mn - sb.top ≤ mx - sb.bottom →
      mn ≤ sb.top + changeY d (some mn) (some mx) sb ∧
      sb.top + changeY d (some mn) (some mx) sb ≤ mx ∧
      mn ≤ sb.bottom + changeY d (some mn) (some mx) sb ∧
      sb.bottom + changeY d (some mn) (some mx) sb ≤ mx) ∧
    (-far ≤ mx - sb.right → sb.right + changeX d none (some mx) sb ≤ mx) ∧
    (mn - sb.left ≤ far → mn ≤ sb.left + changeX d (some mn) none sb) := by
  refine ⟨?_, ?_, ?_, ?_⟩
  · intro hw hfit
    simp only [changeX]
    have h := clamp_mem d (mn - sb.left) (mx - sb.right) hfit
    exact ⟨by linarith [h.1], by linarith [h.2], by linarith [h.1], by linarith [h.2]⟩
  · intro hw hfit
    simp only [changeY]
    have h := clamp_mem d (mn - sb.top) (mx - sb.bottom) hfit
    exact ⟨by linarith [h.1], by linarith [h.2], by linarith [h.1], by linarith [h.2]⟩
  · intro hfar
    simp only [changeX]
    have h := clamp_mem d (-far) (mx - sb.right) hfar
    linarith [h.2]
  · intro hfar
    simp only [changeX]
    have h := clamp_mem d (mn - sb.left) far hfar
    linarith [h.1]

theorem clamped_rect_within_defined_bounds_witness :
    ((0 : ℚ) ≤ (0 : ℚ) + changeX 80 (some 0) (some 100) ⟨0, 0, 36, 36⟩ ∧
      (0 : ℚ) + changeX 80 (some 0) (some 100) ⟨0, 0, 36, 36⟩ ≤ 100 ∧
      (0 : ℚ) ≤ (36 : ℚ) + changeX 80 (some 0) (some 100) ⟨0, 0, 36, 36⟩ ∧
      (36 : ℚ) + changeX 80 (some 0) (some 100) ⟨0, 0, 36, 36⟩ ≤ 100) ∧
    (36 : ℚ) + changeX 80 none (some 100) ⟨0, 0, 36, 36⟩ ≤ 100 :=
  ⟨(clamped_rect_within_defined_bounds ⟨0, 0, 36, 36⟩ 0 100 80).1 (by norm_num) (by norm_num),
   (clamped_rect_within_defined_bounds ⟨0, 0, 36, 36⟩ 0 100 80).2.2.1 (by norm_num [far])⟩

/-- Claim C1 counterexample: start rectangle `left = 0`, `right = 200` with
bounds `minX = 0`, `maxX = 100` (the rectangle is wider than the band) and
delta `0`: the clamp resolves the conflicting bounds in favour of `minX`, so
the right edge (`200`) ends up above `maxX = 100`, falsifying the claim as
stated for every startRectangle. -/
theorem clamped_rect_outside_bounds_example :
    ¬ ((0 : ℚ) ≤ (0 : ℚ) + changeX 0 (some 0) (some 100) ⟨0, 0, 200, 36⟩ ∧
       (0 : ℚ) + changeX 0 (some 0) (some 100) ⟨0, 0, 200, 36⟩ ≤ 100 ∧
       (0 : ℚ) ≤ (200 : ℚ) + changeX 0 (some 0) (some 100) ⟨0, 0, 200, 36⟩ ∧
       (200 : ℚ) + changeX 0 (some 0) (some 100) ⟨0, 0, 200, 36⟩ ≤ 100) := by
  norm_num [changeX, clamp, rmin, rmax, far]

/-- Claim C2 (amended): on an axis with no defined constraint, the clamp is
the identity on every delta whose magnitude stays within the finite sentinel
`far = 999999999`; the "no bound" sentinel is this finite value, not a signed
infinity, so larger finite deltas are truncated (see the counterexample). -/
theorem change_passthrough_within_far (d : ℚ) (sb : Rect)
    (h1 : -far ≤ d) (h2 : d ≤ far) :
    changeX d none none sb = d ∧ changeY d none none sb = d := by
  constructor <;>
  · simp only [changeX, changeY, clamp, rmin_eq_min, rmax_eq_max]
    rw [min_eq_left h2, max_eq_right h1]

theorem change_passthrough_within_far_witness :
    changeX 80 none none ⟨0, 0, 36, 36⟩ = 80 ∧ changeY 80 none none ⟨0, 0, 36, 36⟩ = 80 :=
  change_passthrough_within_far 80 ⟨0, 0, 36, 36⟩ (by norm_num [far]) (by norm_num [far])

/-- Claim C2 counterexample: with no bound defined on the X axis, the finite
input delta `1000000000` is not returned unchanged — it is truncated to the
finite sentinel `999999999`. -/
theorem change_truncates_finite_delta :
    changeX 1000000000 none none ⟨0, 0, 36, 36⟩ ≠ 1000000000 := by
  norm_num [changeX, clamp, rmin, rmax, far]

/-- Claim C3: with base `{0,0}`, size `{36,36}` and only `maxX = 100`
defined, the start rectangle captured at base with zero prior offset has
`right = 36`, and a drag move of `{80,0}` writes the clamped delta
`{64,0} = {100 - 36, 0}` into the pan value. -/
theorem scenario_maxX_clamp :
    getBounds cfgScenario (initState 36) = ⟨0, 0, 36, 36⟩ ∧
    (run cfgScenario [GestureEvent.grant, GestureEvent.move 80 0]).panValue = ⟨64, 0⟩ := by
  constructor
  · norm_num [getBounds, initState, cfgScenario]
  · norm_num [run, step, setPanValue, getBounds, initState, cfgScenario,
      changeX, changeY, clamp, rmin, rmax, far]

/-- Claim C4: with reversal disabled, after a drag from base `{0,0}` whose
clamped delta is `{10,-5}` and a release, the listener mirror holds the
committed `{10,-5}`, the pan offset is folded back to `{0,0}` (the delta was
merged into the flattened value `{10,-5}`), and a subsequent `getBounds`
query returns the rectangle at `{10,-5}` with the default `36 x 36` size. -/
theorem commit_in_place :
    (run cfgOrigin
      [GestureEvent.grant, GestureEvent.move 10 (-5), GestureEvent.release]).offsetFromStart
        = ⟨10, -5⟩ ∧
    (run cfgOrigin
      [GestureEvent.grant, GestureEvent.move 10 (-5), GestureEvent.release]).panOffset
        = ⟨0, 0⟩ ∧
    (run cfgOrigin
      [GestureEvent.grant, GestureEvent.move 10 (-5), GestureEvent.release]).panValue
        = ⟨10, -5⟩ ∧
    getBounds cfgOrigin
      (run cfgOrigin [GestureEvent.grant, GestureEvent.move 10 (-5), GestureEvent.release])
        = ⟨10, -5, 46, 31⟩ := by
  norm_num [run, step, setPanValue, getBounds, initState, cfgOrigin,
    changeX, changeY, clamp, rmin, rmax, far]

/-- Claim C5: the spring-back target computed by `reversePosition` is
`{0,0}` when no custom reverse function is supplied, and `{0,0}` when the
supplied function returns an undefined value; when the function returns a
defined position, that position is the spring target. -/
theorem reverse_spring_target :
    (reverseSpring none).toValue = some ⟨0, 0⟩ ∧
    (∀ f : Unit → Option Position, f () = none →
      (reverseSpring (some f)).toValue = some ⟨0, 0⟩) ∧
    (∀ (f : Unit → Option Position) (p : Position), f () = some p →
      (reverseSpring (some f)).toValue = some p) := by
  refine ⟨rfl, ?_, ?_⟩
  · intro f hf
    simp [reverseSpring, hf]
  · intro f p hf
    simp [reverseSpring, hf]

theorem reverse_spring_target_witness :
    (reverseSpring (some fun _ => none)).toValue = some ⟨0, 0⟩ ∧
    (reverseSpring (some fun _ => some ⟨7, -8⟩)).toValue = some ⟨7, -8⟩ :=
  ⟨reverse_spring_target.2.1 (fun _ => none) rfl,
   reverse_spring_target.2.2 (fun _ => some ⟨7, -8⟩) ⟨7, -8⟩ rfl⟩

/-- Claim C6: a movement with `|dx| ≤ 2` and `|dy| ≤ 2` never makes
`shouldStartDrag` grant the drag (so Idle never transitions to Dragging); a
movement with `dx = 3`, `dy = 0` does when not disabled; and with the
`disabled` flag set no movement ever does. -/
theorem drag_threshold (d : Bool) (dx dy : ℚ) :
    (|dx| ≤ 2 → |dy| ≤ 2 → shouldStartDrag d dx dy = false) ∧
    shouldStartDrag false 3 0 = true ∧
    shouldStartDrag true dx dy = false := by
  refine ⟨?_, ?_, ?_⟩
  · intro h1 h2
    exact shouldStartDrag_le_two d dx dy h1 h2
  · have e : decide (jsAbs (3 : ℚ) > 2) = true := decide_eq_true (by norm_num [jsAbs])
    simp [shouldStartDrag, e]
  · simp [shouldStartDrag]

theorem drag_threshold_witness :
    shouldStartDrag false 1 1 = false ∧
    shouldStartDrag false 3 0 = true ∧
    shouldStartDrag true 3 0 = false :=
  ⟨(drag_threshold false 1 1).1 (by norm_num) (by norm_num),
   (drag_threshold false 0 0).2.1,
   (drag_threshold true 3 0).2.2⟩

/-- Claim C7 (amended): `animateTo` passes its target position to the spring
unchanged and sets the two rest thresholds to `1`; it applies no fallback, so
an undefined target yields a spring configuration with an undefined target
rather than the origin (the `{0,0}` fallback exists only in
`reversePosition`). -/
theorem animateTo_target_passthrough (offset : Option Position) :
    (animateToSpring offset).toValue = offset ∧
    (animateToSpring offset).restDisplacementThreshold = some 1 ∧
    (animateToSpring offset).restSpeedThreshold = some 1 :=
  ⟨rfl, rfl, rfl⟩

/-- Claim C7 counterexample: calling `animateTo` with an undefined target
does not fall back to springing toward `{x:0, y:0}` — the spring target it
builds is still the undefined value. -/
theorem animateTo_undefined_target_not_origin :
    ¬ ((animateToSpring none).toValue = some ⟨0, 0⟩) := by
  simp [animateToSpring]

theorem step_isDragging_startBounds (cfg : Config) (st : DragState) (ev : GestureEvent)
    (h : st.isDragging = true → st.startBounds.isSome = true) :
    (step cfg st ev).isDragging = true → (step cfg st ev).startBounds.isSome = true := by
  cases ev with
  | grant =>
    intro _
    by_cases hr : cfg.shouldReverse <;> simp [step, setPanValue, hr]
  | move dx dy =>
    intro hd
    cases hsb : st.startBounds with
    | none =>
      simp only [step, hsb] at hd ⊢
      have hcontra := h hd
      rw [hsb] at hcontra
      simp at hcontra
    | some sb =>
      by_cases hr : cfg.shouldReverse <;> simp [step, hsb, setPanValue, hr]
  | release =>
    intro hd
    by_cases hr : cfg.shouldReverse <;> simp [step, hr] at hd
  | layout w hgt =>
    intro hd
    simp only [step] at hd ⊢
    exact h hd

theorem foldl_isDragging_startBounds (cfg : Config) (evs : List GestureEvent) (st : DragState)
    (h : st.isDragging = true → st.startBounds.isSome = true) :
    (evs.foldl (step cfg) st).isDragging = true →
      (evs.foldl (step cfg) st).startBounds.isSome = true := by
  induction evs generalizing st with
  | nil => simpa using h
  | cons ev rest ih =>
    simp only [List.foldl_cons]
    exact ih (step cfg st ev) (step_isDragging_startBounds cfg st ev h)

/-- Claim C8 (amended): in every reachable state, `startBounds` is defined
whenever `isDragging` is true; the converse direction of the original claim
fails, because release clears `isDragging` but never clears `startBounds`
(see the counterexample). -/
theorem isActive_implies_startRectangle (cfg : Config) (evs : List GestureEvent)
    (h : (run cfg evs).isDragging = true) :
    (run cfg evs).startBounds.isSome = true := by
  refine foldl_isDragging_startBounds cfg evs (initState 36) ?_ h
  intro hinit
  simp [initState] at hinit

theorem isActive_implies_startRectangle_witness :
    (run cfgOrigin [GestureEvent.grant]).startBounds.isSome = true :=
  isActive_implies_startRectangle cfgOrigin [GestureEvent.grant]
    (by simp [run, step, setPanValue, getBounds, initState, cfgOrigin])

/-- Claim C8 counterexample: after a grant followed by a release, the state
machine is idle (`isDragging = false`) yet `startBounds` is still defined —
it holds the rectangle captured at the grant — so `startRectangle` is not
defined only while the session is active. -/
theorem startBounds_survives_release :
    (run cfgOrigin [GestureEvent.grant, GestureEvent.release]).isDragging = false ∧
    (run cfgOrigin [GestureEvent.grant, GestureEvent.release]).startBounds
      = some ⟨0, 0, 36, 36⟩ := by
  norm_num [run, step, setPanValue, getBounds, initState, cfgOrigin]

/-- Claim C9: a press-and-release whose cumulative movement is `{1,1}` stays
below the drag threshold, so the interaction fires the short-tap callback and
the generic released callback with `wasDragged = false`, and never fires the
drag-release callback; moreover the drag-release path and the short-tap path
are mutually exclusive for any movement. -/
theorem tap_vs_drag_disambiguation (d : Bool) (dx dy : ℚ) :
    Callback.shortTap ∈ pressReleaseCallbacks d 1 1 ∧
    Callback.released false ∈ pressReleaseCallbacks d 1 1 ∧
    Callback.dragRelease ∉ pressReleaseCallbacks d 1 1 ∧
    (Callback.dragRelease ∈ pressReleaseCallbacks d dx dy →
      Callback.shortTap ∉ pressReleaseCallbacks d dx dy) := by
  have h0 : shouldStartDrag d 1 1 = false :=
    shouldStartDrag_le_two d 1 1 (by norm_num) (by norm_num)
  refine ⟨?_, ?_, ?_, ?_⟩
  · simp [pressReleaseCallbacks, h0, handlePressOut]
  · simp [pressReleaseCallbacks, h0, handlePressOut]
  · simp [pressReleaseCallbacks, h0, handlePressOut, panReleaseCallbacks]
  · intro hmem
    cases hs : shouldStartDrag d dx dy with
    | false =>
      rw [pressReleaseCallbacks, hs] at hmem
      simp [handlePressOut] at hmem
    | true =>
      rw [pressReleaseCallbacks, hs]
      simp [handlePressOut, panReleaseCallbacks]

theorem tap_vs_drag_disambiguation_witness :
    Callback.shortTap ∈ pressReleaseCallbacks false 1 1 ∧
    Callback.released false ∈ pressReleaseCallbacks false 1 1 ∧
    Callback.shortTap ∉ pressReleaseCallbacks false 3 0 :=
  ⟨(tap_vs_drag_disambiguation false 1 1).1,
   (tap_vs_drag_disambiguation false 1 1).2.1,
   (tap_vs_drag_disambiguation false 3 0).2.2.2
     (by norm_num [pressReleaseCallbacks, panReleaseCallbacks, handlePressOut,
       shouldStartDrag, jsAbs])⟩

/-- Invariant of reverse mode: the listener mirror is still `{0,0}` and any
captured start rectangle sits at the base position extended by some size. -/
def RevInv (cfg : Config) (st : DragState) : Prop :=
  st.offsetFromStart = ⟨0, 0⟩ ∧
  ∀ r, st.startBounds = some r →
    ∃ sz : Position, r = ⟨cfg.x, cfg.y, cfg.x + sz.x, cfg.y + sz.y⟩

theorem step_rev_inv (cfg : Config) (hrev : cfg.shouldReverse = true)
    (st : DragState) (ev : GestureEvent) (h : RevInv cfg st) :
    RevInv cfg (step cfg st ev) := by
  obtain ⟨h0, hsb⟩ := h
  cases ev with
  | grant =>
    constructor
    · simp [step, hrev, h0]
    · intro r hr
      simp only [step, hrev, if_true] at hr
      simp only [Option.some.injEq] at hr
      refine ⟨st.childSize, ?_⟩
      rw [← hr]
      simp [getBounds, h0]
  | move dx dy =>
    cases hb : st.startBounds with
    | none =>
      constructor
      · simpa [step, hb] using h0
      · intro r hr
        rw [step] at hr
        simp only [hb] at hr
        exact hsb r (hb.trans hr)
    | some sb =>
      constructor
      · simp [step, hb, setPanValue, hrev, h0]
      · intro r hr
        simp only [step, hb, setPanValue, hrev, if_true] at hr
        exact hsb r (hb.trans hr)
  | release =>
    constructor
    · simp [step, hrev, h0]
    · intro r hr
      simp only [step, hrev, if_true] at hr
      exact hsb r hr
  | layout w hgt =>
    constructor
    · simpa [step] using h0
    · intro r hr
      simp only [step] at hr
      exact hsb r hr

theorem foldl_rev_inv (cfg : Config) (hrev : cfg.shouldReverse = true)
    (evs : List GestureEvent) (st : DragState) (h : RevInv cfg st) :
    RevInv cfg (evs.foldl (step cfg) st) := by
  induction evs generalizing st with
  | nil => simpa using h
  | cons ev rest ih =>
    simp only [List.foldl_cons]
    exact ih (step cfg st ev) (step_rev_inv cfg hrev st ev h)

/-- Claim C10: when `shouldReverse` is true no pan listener is registered, so
after every event sequence the mirrored `offsetFromStart` is still `{0,0}`,
`getBounds` returns the base rectangle at `(x, y)` with the currently
measured size, and every captured `startBounds` is the base rectangle at
`(x, y)` with the size measured at its grant. -/
theorem reverse_mode_rect_is_base (cfg : Config) (evs : List GestureEvent)
    (hrev : cfg.shouldReverse = true) :
    (run cfg evs).offsetFromStart = ⟨0, 0⟩ ∧
    getBounds cfg (run cfg evs) =
      ⟨cfg.x, cfg.y, cfg.x + (run cfg evs).childSize.x,
        cfg.y + (run cfg evs).childSize.y⟩ ∧
    ∀ r, (run cfg evs).startBounds = some r →
      ∃ sz : Position, r = ⟨cfg.x, cfg.y, cfg.x + sz.x, cfg.y + sz.y⟩ := by
  have key : RevInv cfg (run cfg evs) := by
    refine foldl_rev_inv cfg hrev evs (initState 36) ?_
    constructor
    · simp [initState]
    · intro r hr
      simp [initState] at hr
  refine ⟨key.1, ?_, key.2⟩
  simp [getBounds, key.1]

theorem reverse_mode_rect_is_base_witness :
    (run cfgReverse
      [GestureEvent.grant, GestureEvent.move 50 50, GestureEvent.release]).offsetFromStart
        = ⟨0, 0⟩ ∧
    getBounds cfgReverse
      (run cfgReverse [GestureEvent.grant, GestureEvent.move 50 50, GestureEvent.release]) =
        ⟨cfgReverse.x, cfgReverse.y,
          cfgReverse.x + (run cfgReverse
            [GestureEvent.grant, GestureEvent.move 50 50, GestureEvent.release]).childSize.x,
          cfgReverse.y + (run cfgReverse
            [GestureEvent.grant, GestureEvent.move 50 50, GestureEvent.release]).childSize.y⟩ :=
  ⟨(reverse_mode_rect_is_base cfgReverse
      [GestureEvent.grant, GestureEvent.move 50 50, GestureEvent.release] rfl).1,
   (reverse_mode_rect_is_base cfgReverse
      [GestureEvent.grant, GestureEvent.move 50 50, GestureEvent.release] rfl).2.1⟩

end Draggable
